import Mathlib

/-!
Verification development for `scripts/calculate_stats.py`: a script that
fetches four raw chain readings from a Cosmos-SDK REST gateway, derives
staking metrics using Python `decimal.Decimal` arithmetic with
`getcontext().prec = 50`, and persists them to a JSON file only when the
relevant fields changed.

The embedding represents `Decimal` values by the exact rational they denote,
with context rounding (50 significant digits, round-half-even) made explicit
on multiplication and division.  JSON scalar values are modelled by `JVal`,
Python dictionaries by association lists, and `dict.get` together with the
Python value `None` by `pyGet` returning `JVal.null` for a missing key (in
Python, `d.get(k)` returns `None` both for a missing key and for a stored
`None`, and `None == None` is `True`).

Python `float(...)` conversions in the script map each exact decimal value to
the nearest IEEE double; every equality stated below compares values that go
through the same conversion on both sides, so the statements are made on the
exact decimal (rational) values.
-/

namespace StakingStats

/-! ### Decimal arithmetic: Python `decimal` with `getcontext().prec = 50` -/

/-- Round a rational to the nearest integer, ties to even
(`decimal.ROUND_HALF_EVEN`, the default rounding of Python `Decimal`). -/
def roundHalfEvenInt (q : ℚ) : ℤ :=
  let f := ⌊q⌋
  let r := q - f
  if r < 1/2 then f
  else if 1/2 < r then f + 1
  else if f % 2 = 0 then f else f + 1

/-- `getcontext().prec = 50` (line 9 of the script). -/
def decPrec : ℕ := 50

/-- Round a rational to at most `p` significant decimal digits, ties to even:
the rounding a Python `Decimal` context with precision `p` applies to the
exact result of an arithmetic operation. -/
def roundSig (p : ℕ) (q : ℚ) : ℚ :=
  if q = 0 then 0
  else
    let e : ℤ := Int.log 10 |q| - ((p : ℤ) - 1)
    (roundHalfEvenInt (q / (10 : ℚ) ^ e) : ℚ) * (10 : ℚ) ^ e

/-- `Decimal` multiplication in the script's context. -/
def mulD (a b : ℚ) : ℚ := roundSig decPrec (a * b)

/-- `Decimal` division in the script's context. -/
def divD (a b : ℚ) : ℚ := roundSig decPrec (a / b)

/-- Round to `n` decimal places, ties to even: the value of
`f"{d:.nf}"` applied to a `Decimal d` (line 118 uses `n = 4`). -/
def roundPlaces (n : ℕ) (q : ℚ) : ℚ :=
  (roundHalfEvenInt (q * 10 ^ n) : ℚ) / 10 ^ n

/-! ### JSON scalar values and Python dictionaries -/

/-- The JSON scalar values occurring in the script's records: Python `None`,
a float, an int, or a string. -/
inductive JVal : Type where
  | null : JVal
  | num : ℚ → JVal
  | int : ℤ → JVal
  | str : String → JVal
deriving DecidableEq, Repr

/-- Python `==` on the scalar values above: numeric values compare by value
across `int`/`float`, `None` equals only `None`, strings equal only equal
strings. -/
def pyEq : JVal → JVal → Bool
  | .null, .null => true
  | .num a, .num b => a = b
  | .int a, .int b => a = b
  | .num a, .int b => a = (b : ℚ)
  | .int a, .num b => (a : ℚ) = b
  | .str a, .str b => a = b
  | _, _ => false

/-- A Python dict with string keys and scalar values, as an association
list (keys are unique in every dict the script builds). -/
abbrev PyDict : Type := List (String × JVal)

/-- `d.get(k)` in Python: the stored value, or `None` for a missing key.
A stored `None` and a missing key are indistinguishable, exactly as for
Python `dict.get`. -/
def pyGet (d : PyDict) (k : String) : JVal :=
  match List.find? (fun p => p.1 == k) d with
  | some p => p.2
  | none => .null

/-! ### `calculate_stats` (lines 40-129) -/

/-- The four independently fetched-and-parsed chain readings.  `none` models
any fetch, HTTP, JSON-decode or conversion failure for that one source
(each failure is caught where it arises and leaves only its own value
unset).  A present value is the exact rational denoted by the
`Decimal(<string>)` (respectively `int(<string>)`) conversion, which is
exact. -/
structure RawReadings : Type where
  inflation_rate : Option ℚ
  bonded_tokens_unil : Option ℚ
  total_supply_unil : Option ℚ
  validator_count : Option ℤ

/-- `NIL_DECIMALS = 6` (line 21). -/
def NIL_DECIMALS : ℕ := 6

/-- Value of `stats["total_staked_nil"]`: initialised to `None` (line 45)
and set to `float(bonded_tokens_unil / (Decimal(10)**NIL_DECIMALS))` on
line 73 when bonded tokens were fetched and parsed. -/
def stakedVal (r : RawReadings) : JVal :=
  match r.bonded_tokens_unil with
  | some bonded => .num (divD bonded ((10 : ℚ) ^ NIL_DECIMALS))
  | none => .null

/-- Value of `stats["active_validator_count"]`: initialised to `None`
(line 46) and set to `int(validators_data['pagination']['total'])` on
line 97 when the validator count was fetched and parsed. -/
def countVal (r : RawReadings) : JVal :=
  match r.validator_count with
  | some n => .int n
  | none => .null

/-- Value of `stats["calculated_apr_percentage"]` (lines 44 and 105-126):
`None` unless inflation, supply and bonded are all present; then, when
`bonded_tokens_unil > 0`,
`float(f"{((inflation_rate * total_supply_unil) / bonded_tokens_unil) * 100:.4f}")`
(lines 116-118), and `0.0` otherwise (line 124). -/
def aprVal (r : RawReadings) : JVal :=
  match r.inflation_rate, r.total_supply_unil, r.bonded_tokens_unil with
  | some inflation, some supply, some bonded =>
      if 0 < bonded then
        .num (roundPlaces 4 (mulD (divD (mulD inflation supply) bonded) 100))
      else
        .num 0
  | _, _, _ => .null

/-- The `stats` dictionary returned by `calculate_stats` (lines 40-129), as
a function of the parsed readings: the dict literal of lines 43-47 after
the per-field updates described at `stakedVal`, `countVal` and `aprVal`
(updates only overwrite existing keys, so the key set is that of the
literal). -/
def calculate_stats (r : RawReadings) : PyDict :=
  [("calculated_apr_percentage", aprVal r),
   ("total_staked_nil", stakedVal r),
   ("active_validator_count", countVal r)]

/-! ### `save_stats_to_file` (lines 131-166) -/

/-- Outcome of `open(OUTPUT_FILE, 'r')` followed by `json.load`:
success with the decoded prior dict, `FileNotFoundError`,
`json.JSONDecodeError`, or any other `OSError` (for instance a permission
error).  The `except` clause on line 155 names only `FileNotFoundError`
and `json.JSONDecodeError`. -/
inductive ReadResult : Type where
  | ok : PyDict → ReadResult
  | fileNotFound : ReadResult
  | decodeError : ReadResult
  | osError : ReadResult
deriving DecidableEq, Repr

/-- Outcome of `open(OUTPUT_FILE, 'w')` followed by `json.dump` (lines
160-161): success; an `IOError` raised by the `open` itself, before the
file was touched; or an `IOError` raised during the dump or the implicit
close, after the `open` already truncated the file.  Both errors are
caught by the `except IOError` on line 163, but they leave the file in
different states.  `TypeError` from `json.dump` is also caught, on line
165, but cannot arise for the scalar values the script stores, so it is
not modelled separately. -/
inductive WriteResult : Type where
  | ok : WriteResult
  | openError : WriteResult
  | dumpError : WriteResult
deriving DecidableEq, Repr

/-- What a call of `save_stats_to_file` does: write the new record, skip
the write, catch a write error, or let an exception escape. -/
inductive SaveOutcome : Type where
  | wrote : SaveOutcome
  | skipped : SaveOutcome
  | writeFailed : SaveOutcome
  | raised : SaveOutcome
deriving DecidableEq, Repr

/-- `relevant_keys` (line 151). -/
def relevant_keys : List String :=
  ["calculated_apr_percentage", "total_staked_nil", "active_validator_count"]

/-- `stats_data["last_updated_utc"] = datetime.now(timezone.utc).isoformat()`
(line 143): adds a new key to the dict built by `calculate_stats`. -/
def withTimestamp (stats : PyDict) (ts : String) : PyDict :=
  stats ++ [("last_updated_utc", .str ts)]

/-- `all(existing_data.get(k) == stats_data.get(k) for k in relevant_keys)`
(line 152). -/
def unchanged (existing stats_data : PyDict) : Bool :=
  relevant_keys.all (fun k => pyEq (pyGet existing k) (pyGet stats_data k))

/-- `save_stats_to_file(stats_data)` as a function of the read and write
outcomes of this invocation: stamps the timestamp, reads the prior file,
skips when all relevant fields compare equal, otherwise writes.
`FileNotFoundError` and `json.JSONDecodeError` fall through to the write;
any other `OSError` on the read is not named in the `except` clause and
propagates.  `IOError` on the write is caught (line 163). -/
def save_stats_to_file (readR : ReadResult) (writeR : WriteResult)
    (stats : PyDict) (ts : String) : SaveOutcome :=
  let stats_data := withTimestamp stats ts
  match readR with
  | .osError => .raised
  | .ok existing =>
      if unchanged existing stats_data then .skipped
      else match writeR with
        | .ok => .wrote
        | .openError => .writeFailed
        | .dumpError => .writeFailed
  | .fileNotFound =>
      (match writeR with
        | .ok => .wrote
        | .openError => .writeFailed
        | .dumpError => .writeFailed)
  | .decodeError =>
      (match writeR with
        | .ok => .wrote
        | .openError => .writeFailed
        | .dumpError => .writeFailed)

/-- The state of the file at `OUTPUT_FILE`: absent, holding a decoded
record, or truncated / partially written (not decodable as the record it
held before). -/
inductive FileContent : Type where
  | missing : FileContent
  | record : PyDict → FileContent
  | corrupt : FileContent
deriving DecidableEq, Repr

/-- Effect of the write block (lines 159-166) on the file, given the
content `old` it held: a successful `open` + `json.dump` replaces it with
the stamped record; an `IOError` from the `open` itself leaves `old` in
place; but once `open(OUTPUT_FILE, 'w')` has succeeded the file is
truncated, so an `IOError` during the dump or close leaves it truncated
or partially written — `old` is destroyed. -/
def writeEffect (writeR : WriteResult) (stats : PyDict) (ts : String)
    (old : FileContent) : FileContent :=
  match writeR with
  | .ok => .record (withTimestamp stats ts)
  | .openError => old
  | .dumpError => .corrupt

/-- The persisted file content after `save_stats_to_file`, given the
content `old` before the call: a read `OSError` raises before the write
block, a skip returns early (line 154), and otherwise the write block
runs with the effect described at `writeEffect`. -/
def fileAfter (readR : ReadResult) (writeR : WriteResult)
    (stats : PyDict) (ts : String) (old : FileContent) : FileContent :=
  match readR with
  | .osError => old
  | .ok existing =>
      if unchanged existing (withTimestamp stats ts) then old
      else writeEffect writeR stats ts old
  | .fileNotFound => writeEffect writeR stats ts old
  | .decodeError => writeEffect writeR stats ts old

/-- The read outcome produced by a healthy filesystem holding `fs`:
a present file decodes to its content, an absent file raises
`FileNotFoundError`. -/
def readOf (fs : Option PyDict) : ReadResult :=
  match fs with
  | some d => .ok d
  | none => .fileNotFound

/-- One compute-then-persist run against a healthy filesystem in state `fs`:
the outcome of `save_stats_to_file(calculate_stats())` and the resulting
file state. -/
structure RunResult : Type where
  outcome : SaveOutcome
  file : Option PyDict

/-- `calculate_stats()` followed by `save_stats_to_file(...)` (lines
169-171), with the wall-clock timestamp `ts` and no I/O failures: the file
is replaced by the stamped record exactly when the write happened, and is
untouched on a skip. -/
def runOnce (fs : Option PyDict) (r : RawReadings) (ts : String) : RunResult :=
  let stats := calculate_stats r
  let o := save_stats_to_file (readOf fs) .ok stats ts
  { outcome := o
    file := if o = .wrote then some (withTimestamp stats ts) else fs }

/-- Modelled from the spec (section 4.3), for comparison with the code's
`relevant_keys`: the spec's claimed comparison field set
\x7bapr_percentage, total_staked, active_validator_count,
raw_inflation_rate, raw_total_supply, raw_bonded_tokens\x7d, with the
key spellings the spec's output schema gives them for this chain's units. -/
def spec_relevant_keys : List String :=
  ["calculated_apr_percentage", "total_staked_nil", "active_validator_count",
   "raw_inflation_rate", "raw_total_supply_unil", "raw_bonded_tokens_unil"]

/-- Modelled from the spec (section 4.3): field-by-field equality over
`spec_relevant_keys`, absent-vs-absent equal. -/
def spec_unchanged (existing stats_data : PyDict) : Bool :=
  spec_relevant_keys.all (fun k => pyEq (pyGet existing k) (pyGet stats_data k))

/-! ### Helper lemmas -/

lemma roundHalfEvenInt_intCast (n : ℤ) : roundHalfEvenInt (n : ℚ) = n := by
  simp [roundHalfEvenInt]

/-- A decimal with a coefficient of fewer than `p` + 1 significant digits is
unchanged by rounding to `p` significant digits. -/
lemma roundSig_eq_self (p : ℕ) (q : ℚ) (m k : ℤ)
    (hq : q = (m : ℚ) * (10 : ℚ) ^ k) (hm : m.natAbs < 10 ^ p) :
    roundSig p q = q := by
  rcases eq_or_ne m 0 with rfl | hm0
  · simp [roundSig, hq]
  have h10 : (1 : ℕ) < 10 := by norm_num
  have hq0 : q ≠ 0 := by
    rw [hq]
    exact mul_ne_zero (Int.cast_ne_zero.mpr hm0) (zpow_ne_zero _ (by norm_num))
  have habs : |q| = (m.natAbs : ℚ) * (10 : ℚ) ^ k := by
    rw [hq, abs_mul, abs_of_pos (zpow_pos (by norm_num : (0:ℚ) < 10) k),
      Int.cast_natAbs, Int.cast_abs]
  set d : ℕ := Nat.log 10 m.natAbs with hd
  have hd1 : 10 ^ d ≤ m.natAbs := Nat.pow_log_le_self 10 (Int.natAbs_ne_zero.mpr hm0)
  have hd2 : m.natAbs < 10 ^ (d + 1) := Nat.lt_pow_succ_log_self h10 _
  have hposq : (0 : ℚ) < |q| := abs_pos.mpr hq0
  have hlog : Int.log 10 |q| = (d : ℤ) + k := by
    have hle : (10 : ℚ) ^ ((d : ℤ) + k) ≤ |q| := by
      rw [habs, zpow_add₀ (by norm_num : (10:ℚ) ≠ 0)]
      have h1 : ((10 : ℚ) ^ (d : ℤ)) ≤ (m.natAbs : ℚ) := by
        rw [zpow_natCast]
        exact_mod_cast hd1
      exact mul_le_mul_of_nonneg_right h1 (zpow_pos (by norm_num) k).le
    have hlt : |q| < (10 : ℚ) ^ ((d : ℤ) + k + 1) := by
      have h1 : ((d : ℤ) + k + 1) = ((d + 1 : ℕ) : ℤ) + k := by push_cast; ring
      rw [habs, h1, zpow_add₀ (by norm_num : (10:ℚ) ≠ 0), zpow_natCast]
      have h2 : (m.natAbs : ℚ) < (10 : ℚ) ^ (d + 1) := by exact_mod_cast hd2
      exact mul_lt_mul_of_pos_right h2 (zpow_pos (by norm_num) k)
    have hub := (Int.lt_zpow_iff_log_lt (by norm_num) hposq).mp hlt
    have hlb := (Int.zpow_le_iff_le_log (by norm_num) hposq).mp hle
    exact le_antisymm (Int.lt_add_one_iff.mp hub) hlb
  have hdp : d < p := (Nat.pow_lt_pow_iff_right h10).mp (lt_of_le_of_lt hd1 hm)
  have hten : (10 : ℚ) ≠ 0 := by norm_num
  have hke : (d : ℤ) + k - ((p : ℤ) - 1) = k - ((p - 1 - d : ℕ) : ℤ) := by omega
  have hsplit : q / (10 : ℚ) ^ (k - ((p - 1 - d : ℕ) : ℤ)) =
      ((m * 10 ^ (p - 1 - d) : ℤ) : ℚ) := by
    rw [hq, mul_div_assoc, ← zpow_sub₀ hten]
    have hexp : k - (k - ((p - 1 - d : ℕ) : ℤ)) = ((p - 1 - d : ℕ) : ℤ) := by omega
    rw [hexp, zpow_natCast]
    push_cast
    ring
  rw [roundSig, if_neg hq0, hlog, hke]
  show (roundHalfEvenInt (q / (10 : ℚ) ^ (k - ((p - 1 - d : ℕ) : ℤ))) : ℚ) *
      (10 : ℚ) ^ (k - ((p - 1 - d : ℕ) : ℤ)) = q
  rw [hsplit, roundHalfEvenInt_intCast, hq]
  push_cast
  rw [mul_assoc, ← zpow_natCast (10 : ℚ) (p - 1 - d), ← zpow_add₀ hten]
  have hexp2 : ((p - 1 - d : ℕ) : ℤ) + (k - ((p - 1 - d : ℕ) : ℤ)) = k := by omega
  rw [hexp2]

lemma pyEq_refl (v : JVal) : pyEq v v = true := by
  cases v <;> simp [pyEq]

lemma pyGet_calculate_stats_apr (r : RawReadings) :
    pyGet (calculate_stats r) "calculated_apr_percentage" = aprVal r := rfl

lemma pyGet_calculate_stats_staked (r : RawReadings) :
    pyGet (calculate_stats r) "total_staked_nil" = stakedVal r := rfl

lemma pyGet_calculate_stats_count (r : RawReadings) :
    pyGet (calculate_stats r) "active_validator_count" = countVal r := rfl

/-- Looking a timestamp-free key up in a timestamped record reads the
underlying record: the only key `withTimestamp` adds is
`last_updated_utc`. -/
lemma pyGet_withTimestamp (stats : PyDict) (ts : String) (k : String)
    (hk : k ≠ "last_updated_utc") :
    pyGet (withTimestamp stats ts) k = pyGet stats k := by
  rw [withTimestamp, pyGet, pyGet, List.find?_append]
  cases h : List.find? (fun p => p.1 == k) stats with
  | some p => rfl
  | none =>
      have : (("last_updated_utc" : String) == k) = false := by
        simp [hk.symm]
      simp [List.find?, this]

/-- The three compared keys are insensitive to the timestamp stamped on a
record. -/
lemma pyGet_withTimestamp_relevant (stats : PyDict) (ts : String) (k : String)
    (hk : k ∈ relevant_keys) :
    pyGet (withTimestamp stats ts) k = pyGet stats k := by
  apply pyGet_withTimestamp
  simp only [relevant_keys, List.mem_cons, List.not_mem_nil, or_false] at hk
  rcases hk with rfl | rfl | rfl <;> decide

/-- Two stampings of one record compare as unchanged: the comparison field
set does not contain the timestamp. -/
lemma unchanged_withTimestamp (d : PyDict) (stats : PyDict) (ts1 ts2 : String)
    (h : unchanged d (withTimestamp stats ts1) = true) :
    unchanged d (withTimestamp stats ts2) = true := by
  rw [unchanged, List.all_eq_true] at h ⊢
  intro k hk
  rw [pyGet_withTimestamp_relevant _ _ _ hk]
  have := h k hk
  rwa [pyGet_withTimestamp_relevant _ _ _ hk] at this

/-- A freshly stamped record compares as unchanged against any other
stamping of the same record. -/
lemma unchanged_self_stamped (stats : PyDict) (ts1 ts2 : String) :
    unchanged (withTimestamp stats ts1) (withTimestamp stats ts2) = true := by
  rw [unchanged, List.all_eq_true]
  intro k hk
  rw [pyGet_withTimestamp_relevant _ _ _ hk, pyGet_withTimestamp_relevant _ _ _ hk]
  exact pyEq_refl _

/-! Concrete evaluations of the decimal operations used by the sample
values of the claims: none of them has more than 50 significant digits, so
the context rounding leaves them unchanged. -/

lemma mulD_sample1 : mulD (13/100 : ℚ) 1000000000000 = 130000000000 := by
  rw [mulD, roundSig_eq_self decPrec _ 13 10 (by norm_num) (by norm_num [decPrec])]
  norm_num

lemma divD_sample1 : divD (130000000000 : ℚ) 500000000000 = 13/50 := by
  rw [divD, roundSig_eq_self decPrec _ 26 (-2) (by norm_num) (by norm_num [decPrec])]
  norm_num

lemma mulD_sample2 : mulD (13/50 : ℚ) 100 = 26 := by
  rw [mulD, roundSig_eq_self decPrec _ 26 0 (by norm_num) (by norm_num [decPrec])]
  norm_num

lemma roundPlaces_26 : roundPlaces 4 (26 : ℚ) = 26 := by
  have h : (26 : ℚ) * 10 ^ (4 : ℕ) = ((260000 : ℤ) : ℚ) := by norm_num
  rw [roundPlaces, h, roundHalfEvenInt_intCast]
  norm_num

lemma divD_sample2 : divD (123456789 : ℚ) ((10 : ℚ) ^ NIL_DECIMALS) =
    123456789 / 1000000 := by
  rw [divD, roundSig_eq_self decPrec _ 123456789 (-6) (by norm_num [NIL_DECIMALS])
    (by norm_num [decPrec])]
  norm_num [NIL_DECIMALS]

/-- When all relevant fields compare equal against the stamped new record,
`save_stats_to_file` skips the write (the early `return` on line 154),
whatever the write outcome would have been. -/
lemma save_skip_of_unchanged (existing stats : PyDict) (ts : String)
    (writeR : WriteResult)
    (h : unchanged existing (withTimestamp stats ts) = true) :
    save_stats_to_file (.ok existing) writeR stats ts = .skipped := by
  simp [save_stats_to_file, h]

/-- The file state after a run: replaced exactly on a write. -/
lemma runOnce_file (fs : Option PyDict) (r : RawReadings) (ts : String) :
    (runOnce fs r ts).file =
      if (runOnce fs r ts).outcome = .wrote then
        some (withTimestamp (calculate_stats r) ts)
      else fs := rfl

/-! ### The claims -/

/-- C1, counterexample: the claim says the output record retains the raw
string values as fields `raw_inflation_rate`, `raw_total_supply_unil` and
`raw_bonded_tokens_unil` for every combination of present/absent inputs;
on a run with all four inputs present, none of those keys occurs in the
output record. -/
theorem C1_raw_fields_absent :
    ¬ ("raw_inflation_rate" ∈ (withTimestamp (calculate_stats
        ⟨some (13/100), some 500000000000, some 1000000000000, some 42⟩)
        "2025-01-01T00:00:00+00:00").map Prod.fst) ∧
    ¬ ("raw_total_supply_unil" ∈ (withTimestamp (calculate_stats
        ⟨some (13/100), some 500000000000, some 1000000000000, some 42⟩)
        "2025-01-01T00:00:00+00:00").map Prod.fst) ∧
    ¬ ("raw_bonded_tokens_unil" ∈ (withTimestamp (calculate_stats
        ⟨some (13/100), some 500000000000, some 1000000000000, some 42⟩)
        "2025-01-01T00:00:00+00:00").map Prod.fst) := by
  refine ⟨?_, ?_, ?_⟩ <;> decide

/-- C1, amended: the output record produced by a run consists of exactly the
three derived-metric fields `calculated_apr_percentage`, `total_staked_nil`
and `active_validator_count` followed by the `last_updated_utc` timestamp,
for every combination of present/absent inputs; the original raw string
values are not retained. -/
theorem C1_output_record_fields (r : RawReadings) (ts : String) :
    (withTimestamp (calculate_stats r) ts).map Prod.fst =
      ["calculated_apr_percentage", "total_staked_nil",
       "active_validator_count", "last_updated_utc"] := rfl

/-- C2, counterexample: the claim says the change detection compares the six
fields including `raw_inflation_rate`, with a write exactly when one of
them differs.  Against a prior record whose `raw_inflation_rate` differs
from the new record (which never carries that key) while the three derived
fields agree, the persister skips, although the spec's six-field
comparison reports a difference. -/
theorem C2_raw_fields_not_compared :
    save_stats_to_file (.ok [("calculated_apr_percentage", JVal.null),
        ("total_staked_nil", JVal.null), ("active_validator_count", JVal.null),
        ("raw_inflation_rate", JVal.str "0.07")]) .ok
      (calculate_stats ⟨none, none, none, none⟩) "2025-01-01T00:00:00+00:00" =
      .skipped ∧
    spec_unchanged [("calculated_apr_percentage", JVal.null),
        ("total_staked_nil", JVal.null), ("active_validator_count", JVal.null),
        ("raw_inflation_rate", JVal.str "0.07")]
      (withTimestamp (calculate_stats ⟨none, none, none, none⟩)
        "2025-01-01T00:00:00+00:00") = false := by
  exact ⟨rfl, rfl⟩

/-- C2, amended: the persister's change detection compares exactly the field
set \x7bcalculated_apr_percentage, total_staked_nil,
active_validator_count\x7d between the prior persisted record and the new
record, field-by-field with `dict.get` (so absent-vs-absent compares
equal); with a readable prior record a write occurs if and only if at
least one of these three fields differs, and with no prior data a write
always occurs. -/
theorem C2_change_detection (existing stats : PyDict) (ts : String) :
    (save_stats_to_file (.ok existing) .ok stats ts = .wrote ↔
      ∃ k ∈ relevant_keys,
        pyEq (pyGet existing k) (pyGet (withTimestamp stats ts) k) = false) ∧
    save_stats_to_file .fileNotFound .ok stats ts = .wrote := by
  refine ⟨?_, rfl⟩
  simp only [save_stats_to_file]
  by_cases h : unchanged existing (withTimestamp stats ts) = true
  · rw [if_pos h]
    rw [unchanged, List.all_eq_true] at h
    constructor
    · intro hw
      exact absurd hw (by simp)
    · rintro ⟨k, hk, hf⟩
      exact absurd (h k hk) (by simp [hf])
  · rw [if_neg h]
    rw [unchanged, List.all_eq_true] at h
    push_neg at h
    obtain ⟨k, hk, hf⟩ := h
    exact ⟨fun _ => ⟨k, hk, by simpa using hf⟩, fun _ => rfl⟩

/-- C2, witness: a run with no prior data writes. -/
theorem C2_change_detection_witness :
    save_stats_to_file .fileNotFound .ok
      (calculate_stats ⟨none, none, none, none⟩) "2025-01-02T00:00:00+00:00" =
      .wrote :=
  (C2_change_detection [] (calculate_stats ⟨none, none, none, none⟩)
    "2025-01-02T00:00:00+00:00").2

/-- C3: with all raw inputs present and `bonded_tokens > 0`, the computed
APR equals `((inflation * supply) / bonded) * 100` in the script's 50-digit
decimal arithmetic, rounded to 4 decimal places; in particular
inflation="0.13", supply="1000000000000", bonded="500000000000" yields
exactly 26. -/
theorem C3_apr_formula :
    (∀ (inflation supply bonded : ℚ) (c : Option ℤ), 0 < bonded →
      pyGet (calculate_stats ⟨some inflation, some bonded, some supply, c⟩)
          "calculated_apr_percentage" =
        JVal.num (roundPlaces 4 (mulD (divD (mulD inflation supply) bonded) 100))) ∧
    pyGet (calculate_stats
        ⟨some (13/100), some 500000000000, some 1000000000000, some 42⟩)
        "calculated_apr_percentage" = JVal.num 26 := by
  constructor
  · intro inflation supply bonded c h
    rw [pyGet_calculate_stats_apr]
    simp only [aprVal]
    rw [if_pos h]
  · rw [pyGet_calculate_stats_apr]
    simp only [aprVal]
    rw [if_pos (by norm_num : (0:ℚ) < 500000000000), mulD_sample1, divD_sample1,
      mulD_sample2, roundPlaces_26]

/-- C3, witness: the formula instantiated at the sample values. -/
theorem C3_apr_formula_witness :
    pyGet (calculate_stats
        ⟨some (13/100), some 500000000000, some 1000000000000, some 42⟩)
        "calculated_apr_percentage" =
      JVal.num (roundPlaces 4
        (mulD (divD (mulD (13/100) 1000000000000) 500000000000) 100)) :=
  C3_apr_formula.1 (13/100) 1000000000000 500000000000 (some 42) (by norm_num)

/-- C4: `calculated_apr_percentage` is non-null only if inflation, supply
and bonded were all obtained; if any of the three is absent it is null
(not zero, not coerced to a number). -/
theorem C4_apr_presence (r : RawReadings) :
    (pyGet (calculate_stats r) "calculated_apr_percentage" ≠ JVal.null →
      r.inflation_rate.isSome ∧ r.total_supply_unil.isSome ∧
        r.bonded_tokens_unil.isSome) ∧
    ((r.inflation_rate = none ∨ r.total_supply_unil = none ∨
        r.bonded_tokens_unil = none) →
      pyGet (calculate_stats r) "calculated_apr_percentage" = JVal.null) := by
  rcases r with ⟨i, b, s, c⟩
  rw [pyGet_calculate_stats_apr]
  cases i <;> cases s <;> cases b <;> simp [aprVal]

/-- C4, witness: with inflation absent and the other inputs present, the APR
field is null. -/
theorem C4_apr_presence_witness :
    pyGet (calculate_stats ⟨none, some 1000, some 1000, some 3⟩)
        "calculated_apr_percentage" = JVal.null :=
  (C4_apr_presence ⟨none, some 1000, some 1000, some 3⟩).2 (Or.inl rfl)

/-- C5: with inflation, supply and bonded present and bonded exactly zero,
the APR is set to exactly 0, whatever inflation and supply are; the zero
branch never evaluates the division. -/
theorem C5_zero_bonded_apr_zero (inflation supply : ℚ) (c : Option ℤ) :
    pyGet (calculate_stats ⟨some inflation, some 0, some supply, c⟩)
        "calculated_apr_percentage" = JVal.num 0 := by
  rw [pyGet_calculate_stats_apr]
  simp [aprVal]

/-- C6: whenever bonded tokens are present, `total_staked_nil` is bonded
divided by `10^6` in the script's decimal arithmetic (exactly the quotient
whenever bonded has at most 50 significant digits); when bonded is absent
it is null; bonded="123456789" gives exactly 123.456789. -/
theorem C6_total_staked :
    (∀ (bonded : ℚ) (i s : Option ℚ) (c : Option ℤ),
      pyGet (calculate_stats ⟨i, some bonded, s, c⟩) "total_staked_nil" =
        JVal.num (divD bonded ((10 : ℚ) ^ NIL_DECIMALS))) ∧
    (∀ (i s : Option ℚ) (c : Option ℤ),
      pyGet (calculate_stats ⟨i, none, s, c⟩) "total_staked_nil" = JVal.null) ∧
    divD (123456789 : ℚ) ((10 : ℚ) ^ NIL_DECIMALS) = 123456789 / 1000000 := by
  refine ⟨?_, ?_, divD_sample2⟩ <;> intros <;>
    rw [pyGet_calculate_stats_staked] <;> simp [stakedVal]

/-- C7: starting with no prior file, a compute-then-persist run writes, and
a second run with the same fetched inputs skips, whatever the two
timestamps are — exactly one write; moreover after a first run from any
prior state, the second run skips (the timestamp is excluded from the
comparison). -/
theorem C7_idempotent_persist (r : RawReadings) (ts1 ts2 : String) :
    (runOnce none r ts1).outcome = .wrote ∧
    (runOnce none r ts1).file = some (withTimestamp (calculate_stats r) ts1) ∧
    ∀ fs : Option PyDict,
      (runOnce ((runOnce fs r ts1).file) r ts2).outcome = .skipped := by
  refine ⟨rfl, rfl, ?_⟩
  intro fs
  cases fs with
  | none =>
      have hfile : (runOnce (none : Option PyDict) r ts1).file =
          some (withTimestamp (calculate_stats r) ts1) := rfl
      rw [hfile]
      show save_stats_to_file (.ok (withTimestamp (calculate_stats r) ts1)) .ok
          (calculate_stats r) ts2 = .skipped
      exact save_skip_of_unchanged _ _ _ _ (unchanged_self_stamped _ ts1 ts2)
  | some d =>
      cases h1 : unchanged d (withTimestamp (calculate_stats r) ts1) with
      | true =>
          have ho : (runOnce (some d) r ts1).outcome = .skipped := by
            show save_stats_to_file (.ok d) .ok (calculate_stats r) ts1 = .skipped
            exact save_skip_of_unchanged _ _ _ _ h1
          have hfile : (runOnce (some d) r ts1).file = some d := by
            rw [runOnce_file, ho]; simp
          rw [hfile]
          show save_stats_to_file (.ok d) .ok (calculate_stats r) ts2 = .skipped
          exact save_skip_of_unchanged _ _ _ _
            (unchanged_withTimestamp d _ ts1 ts2 h1)
      | false =>
          have ho : (runOnce (some d) r ts1).outcome = .wrote := by
            show save_stats_to_file (.ok d) .ok (calculate_stats r) ts1 = .wrote
            simp [save_stats_to_file, h1]
          have hfile : (runOnce (some d) r ts1).file =
              some (withTimestamp (calculate_stats r) ts1) := by
            rw [runOnce_file, ho]; simp
          rw [hfile]
          show save_stats_to_file (.ok (withTimestamp (calculate_stats r) ts1)) .ok
              (calculate_stats r) ts2 = .skipped
          exact save_skip_of_unchanged _ _ _ _ (unchanged_self_stamped _ ts1 ts2)

/-- C8: with no prior file (`FileNotFoundError`) or an undecodable prior
file (`json.JSONDecodeError`), the persister always writes the new record,
whatever its values — including a record with every metric absent; neither
condition escapes as an exception. -/
theorem C8_no_prior_always_writes (stats : PyDict) (ts : String)
    (readR : ReadResult) (h : readR = .fileNotFound ∨ readR = .decodeError) :
    save_stats_to_file readR .ok stats ts = .wrote := by
  rcases h with rfl | rfl <;> rfl

/-- C8, witness: the first-ever run with every metric absent writes. -/
theorem C8_no_prior_always_writes_witness :
    save_stats_to_file .fileNotFound .ok
      (calculate_stats ⟨none, none, none, none⟩) "2025-01-03T00:00:00+00:00" =
      .wrote :=
  C8_no_prior_always_writes _ _ .fileNotFound (Or.inl rfl)

/-- C9, counterexample: the claim fails twice.  An `OSError` other than
`FileNotFoundError` on the read (for instance a permission error) is not
named in the `except` clause of line 155 and escapes the persister.  And
on a failed write the prior persisted state need not remain unchanged:
when `open(OUTPUT_FILE, 'w')` on line 160 succeeds, it truncates the
file, so an `IOError` during the `json.dump` — caught on line 163 and
reported as a failed write — leaves the file truncated instead of holding
the prior record. -/
theorem C9_uncontained_errors :
    save_stats_to_file .osError .ok
      (calculate_stats ⟨none, none, none, none⟩) "2025-01-04T00:00:00+00:00" =
      .raised ∧
    fileAfter (.ok [("calculated_apr_percentage", JVal.num 1)]) .dumpError
        (calculate_stats ⟨none, none, none, none⟩) "2025-01-04T00:00:00+00:00"
        (.record [("calculated_apr_percentage", JVal.num 1)]) = .corrupt ∧
    save_stats_to_file (.ok [("calculated_apr_percentage", JVal.num 1)])
        .dumpError (calculate_stats ⟨none, none, none, none⟩)
        "2025-01-04T00:00:00+00:00" = .writeFailed := by
  exact ⟨rfl, rfl, rfl⟩

/-- C9, amended: write errors are caught inside the persister and reported
as a failed write, and a missing or undecodable prior file is handled, so
no exception propagates from those; but a read I/O error other than
file-not-found propagates.  On a failed write the prior persisted state
is preserved only when the output file could not be opened; once the file
has been opened for writing it is truncated, so a failure during the dump
leaves a truncated or partially written file, not the prior state.  A skip
leaves the prior state untouched. -/
theorem C9_error_containment (readR : ReadResult) (writeR : WriteResult)
    (stats : PyDict) (ts : String) (old : FileContent) :
    (readR ≠ .osError → save_stats_to_file readR writeR stats ts ≠ .raised) ∧
    (save_stats_to_file readR writeR stats ts = .writeFailed →
      (writeR = .openError → fileAfter readR writeR stats ts old = old) ∧
      (writeR = .dumpError → fileAfter readR writeR stats ts old = .corrupt)) ∧
    (save_stats_to_file readR writeR stats ts = .skipped →
      fileAfter readR writeR stats ts old = old) := by
  refine ⟨?_, ?_, ?_⟩
  · intro hr
    cases readR with
    | osError => exact absurd rfl hr
    | ok existing =>
        simp only [save_stats_to_file]
        split_ifs
        · simp
        · cases writeR <;> simp
    | fileNotFound => cases writeR <;> simp [save_stats_to_file]
    | decodeError => cases writeR <;> simp [save_stats_to_file]
  · intro hwf
    cases readR with
    | osError => simp [save_stats_to_file] at hwf
    | ok existing =>
        by_cases hu : unchanged existing (withTimestamp stats ts) = true
        · rw [save_skip_of_unchanged existing stats ts writeR hu] at hwf
          simp at hwf
        · have hfa : fileAfter (.ok existing) writeR stats ts old =
              writeEffect writeR stats ts old := by
            simp only [fileAfter]
            rw [if_neg hu]
          rw [hfa]
          cases writeR with
          | ok => simp [save_stats_to_file, hu] at hwf
          | openError => exact ⟨fun _ => rfl, (fun h => nomatch h)⟩
          | dumpError => exact ⟨(fun h => nomatch h), fun _ => rfl⟩
    | fileNotFound =>
        cases writeR with
        | ok => simp [save_stats_to_file] at hwf
        | openError => exact ⟨fun _ => rfl, (fun h => nomatch h)⟩
        | dumpError => exact ⟨(fun h => nomatch h), fun _ => rfl⟩
    | decodeError =>
        cases writeR with
        | ok => simp [save_stats_to_file] at hwf
        | openError => exact ⟨fun _ => rfl, (fun h => nomatch h)⟩
        | dumpError => exact ⟨(fun h => nomatch h), fun _ => rfl⟩
  · intro hsk
    cases readR with
    | osError => simp [save_stats_to_file] at hsk
    | ok existing =>
        by_cases hu : unchanged existing (withTimestamp stats ts) = true
        · simp only [fileAfter]
          rw [if_pos hu]
        · simp only [save_stats_to_file, hu] at hsk
          cases writeR <;> simp at hsk
    | fileNotFound => cases writeR <;> simp [save_stats_to_file] at hsk
    | decodeError => cases writeR <;> simp [save_stats_to_file] at hsk

/-- C9, witness: a write failure on the `open` itself is caught and leaves
the prior state in place. -/
theorem C9_error_containment_witness :
    save_stats_to_file (.ok [("calculated_apr_percentage", JVal.num 1)])
        .openError (calculate_stats ⟨none, none, none, none⟩)
        "2025-01-05T00:00:00+00:00" ≠ .raised ∧
    fileAfter (.ok [("calculated_apr_percentage", JVal.num 1)]) .openError
        (calculate_stats ⟨none, none, none, none⟩) "2025-01-05T00:00:00+00:00"
        (.record [("calculated_apr_percentage", JVal.num 1)]) =
      .record [("calculated_apr_percentage", JVal.num 1)] := by
  constructor
  · exact (C9_error_containment (.ok [("calculated_apr_percentage", JVal.num 1)])
      .openError (calculate_stats ⟨none, none, none, none⟩)
      "2025-01-05T00:00:00+00:00"
      (.record [("calculated_apr_percentage", JVal.num 1)])).1 (by decide)
  · exact ((C9_error_containment (.ok [("calculated_apr_percentage", JVal.num 1)])
      .openError (calculate_stats ⟨none, none, none, none⟩)
      "2025-01-05T00:00:00+00:00"
      (.record [("calculated_apr_percentage", JVal.num 1)])).2.1
      (by decide)).1 rfl

/-- C10: with inflation, supply and bonded present and bonded strictly
negative, the guard `bonded_tokens_unil > 0` sends the computation to the
zero branch, so the APR is exactly 0 and the formula is never evaluated
with a negative denominator. -/
theorem C10_negative_bonded_apr_zero (inflation supply bonded : ℚ)
    (c : Option ℤ) (h : bonded < 0) :
    pyGet (calculate_stats ⟨some inflation, some bonded, some supply, c⟩)
        "calculated_apr_percentage" = JVal.num 0 := by
  rw [pyGet_calculate_stats_apr]
  simp only [aprVal]
  rw [if_neg (not_lt.mpr h.le)]

/-- C10, witness: a negative bonded amount yields APR exactly 0. -/
theorem C10_negative_bonded_apr_zero_witness :
    pyGet (calculate_stats ⟨some (13/100), some (-5), some 1000000000000, some 42⟩)
        "calculated_apr_percentage" = JVal.num 0 :=
  C10_negative_bonded_apr_zero (13/100) 1000000000000 (-5) (some 42) (by norm_num)

end StakingStats
